import Mathlib

/-
Verification of the Sapling SidebarProvider view-synchronization controller
(src/sapling/src/SidebarProvider.ts) against its specification.

The controller mediates between an external Parser (imported from ./parser,
which is not part of the analysed sources and is therefore modelled from the
spec) and a webview UI surface.  Each event handler of the source is embedded
as a pure Lean function from the provider state and the event inputs to a
result record carrying the final state, the list of outbound messages posted
to the webview (in order), and a fault flag.  A fault models a JavaScript
TypeError raised by a member access on undefined: the handler aborts at that
point, so mutations performed before the throw persist in the resulting state
and messages posted before the throw stay in the list.
-/

namespace Sapling

/-- One node of a parse tree as the controller sees it: a numeric identity and
the UI expanded/collapsed flag that onNodeToggle flips. -/
structure TreeNode where
  id : Nat
  expanded : Bool
deriving Repr, DecidableEq

/-- Modelled from the spec: the Tree produced by the external Parser
(src imports ./parser, whose sources are not included).  It carries the display
name of the bound file (read by the controller as parser.tree.fileName) and the
per-node expanded state. -/
structure Tree where
  fileName : String
  nodes : List TreeNode
deriving Repr, DecidableEq

/-- Modelled from the spec: the observable behaviour of the external Parser
collaborator, abstracted as deterministic functions.  parseFn gives the full
parse of the bound file; updateFn gives the re-derived tree from the bound
file, the previous tree and the saved path (the Parser decides whether the
path matches its bound file).  The controller theorems hold for every oracle,
i.e. for every Parser meeting the spec interface. -/
structure ParserOracle where
  parseFn : String → Tree
  updateFn : String → Option Tree → String → Tree

/-- Modelled from the spec: the state of one external Parser instance — the
entry file it was constructed with and the last computed tree, absent until
the first parse. -/
structure SaplingParser where
  entryFile : String
  tree : Option Tree
deriving Repr, DecidableEq

/-- Modelled from the spec: the Parser constructor `new SaplingParser(path)`
binds a new parse session to the file; no tree exists yet. -/
def SaplingParser.construct (path : String) : SaplingParser :=
  ⟨path, none⟩

/-- Modelled from the spec: `parse()` performs the full parse of the bound
file, stores the tree on the parser and returns it. -/
def SaplingParser.parse (O : ParserOracle) (p : SaplingParser) :
    SaplingParser × Tree :=
  (⟨p.entryFile, some (O.parseFn p.entryFile)⟩, O.parseFn p.entryFile)

/-- Modelled from the spec: `updateTree(path)` re-derives the tree for the
saved path, stores it on the parser and returns it. -/
def SaplingParser.updateTree (O : ParserOracle) (p : SaplingParser)
    (path : String) : SaplingParser × Tree :=
  (⟨p.entryFile, some (O.updateFn p.entryFile p.tree path)⟩,
   O.updateFn p.entryFile p.tree path)

/-- Modelled from the spec: `getTree()` returns the last computed tree without
recomputation (undefined when no parse has run). -/
def SaplingParser.getTree (p : SaplingParser) : Option Tree :=
  p.tree

/-- Flip the expanded flag of the node with the given id, in place. -/
def Tree.toggle (t : Tree) (id : Nat) (expanded : Bool) : Tree :=
  { t with nodes :=
      t.nodes.map (fun n => if n.id = id then { n with expanded := expanded } else n) }

/-- Modelled from the spec: `toggleNode(id, expanded)` mutates the UI-state
flag of one node of the held tree in place. -/
def SaplingParser.toggleNode (p : SaplingParser) (id : Nat) (expanded : Bool) :
    SaplingParser :=
  { p with tree := p.tree.map (fun t => t.toggle id expanded) }

/-- The webview view surface; only its visibility flag is observed by the
controller (webviewView.visible gates the save-triggered push). -/
structure WebviewView where
  visible : Bool
deriving Repr, DecidableEq

/-- The state of the SidebarProvider instance: the optional view surface
(_view, set by resolveWebviewView and revive), the never-written _doc field,
and the optional parser of the current tree session. -/
structure SidebarProvider where
  _view : Option WebviewView
  _doc : Option String
  parser : Option SaplingParser
deriving Repr, DecidableEq

/-- Outbound messages posted to the webview, as the tagged union of the
`type` strings used by the source.  parsed-data carries the tree value the
source computed (possibly undefined, since getTree may return undefined). -/
inductive OutMsg where
  | settingsData (value : String)
  | currentTab (value : String)
  | parsedData (value : Option Tree)
  | savedFile (value : String)
deriving Repr, DecidableEq

/-- Inbound UI messages, the tagged union dispatched by the switch in
onDidReceiveMessage.  String-valued payloads are Option String so that an
absent (undefined) value and an empty string are both representable, matching
the JavaScript falsiness test `if (!data.value)`. -/
inductive InMsg where
  | onFile (value : Option String)
  | onViewFile (value : Option String)
  | onSaplingVisible
  | onSettingsAcquire
  | onNodeToggle (id : Nat) (expanded : Bool)
  | onBoldCheck
deriving Repr, DecidableEq

/-- Result of running one handler: the provider state after it returns or
throws, the outbound messages posted (in order), and whether it faulted
(a TypeError from a member access on undefined). -/
structure HResult where
  state : SidebarProvider
  msgs : List OutMsg
  faulted : Bool
deriving Repr, DecidableEq

/-- The onDidChangeConfiguration handler registered in resolveWebviewView:
reads the fresh settings snapshot (passed here as the settingsView argument)
and posts it as settings-data unconditionally; the closure webviewView always
exists, so the post cannot fault. -/
def onDidChangeConfiguration (settingsView : String) (s : SidebarProvider) :
    HResult :=
  ⟨s, [OutMsg.settingsData settingsView], false⟩

/-- The onDidChangeActiveTextEditor handler registered in resolveWebviewView:
when the event fires with no editor (all tabs closed) it returns early;
otherwise it posts the document file name of the new editor as current-tab.
The argument is the file name of the document of the event editor, absent when
the event carries no editor. -/
def onDidChangeActiveTextEditor (e : Option String) (s : SidebarProvider) :
    HResult :=
  match e with
  | none => ⟨s, [], false⟩
  | some fileName => ⟨s, [OutMsg.currentTab fileName], false⟩

/-- The onDidSaveTextDocument handler registered in resolveWebviewView: if no
parser exists it returns early; otherwise it calls updateTree with the saved
document file name and, only when the closure webviewView is visible, posts
the re-derived tree as parsed-data. -/
def onDidSaveTextDocument (O : ParserOracle) (docFileName : String)
    (visible : Bool) (s : SidebarProvider) : HResult :=
  match s.parser with
  | none => ⟨s, [], false⟩
  | some p =>
    let pr := p.updateTree O docFileName
    if visible then
      ⟨{ s with parser := some pr.1 }, [OutMsg.parsedData (some pr.2)], false⟩
    else
      ⟨{ s with parser := some pr.1 }, [], false⟩

/-- The onDidReceiveMessage switch registered in resolveWebviewView.
activeEditor is the file name of the active text editor document (absent when
there is none), used by onBoldCheck; settingsView is the current settings
snapshot, used by onSettingsAcquire.  Posts inside this handler go to the
closure webviewView.webview, which always exists, except onBoldCheck which
posts through this._view.  The onViewFile case with a present value opens the
file in the editor, a host effect outside this model that touches neither the
provider state nor the message channel. -/
def onDidReceiveMessage (O : ParserOracle) (activeEditor : Option String)
    (settingsView : String) (data : InMsg) (s : SidebarProvider) : HResult :=
  match data with
  | InMsg.onFile value =>
    match value with
    | none => ⟨s, [], false⟩
    | some path =>
      if path = "" then ⟨s, [], false⟩
      else
        let pr := (SaplingParser.construct path).parse O
        ⟨{ s with parser := some pr.1 }, [OutMsg.parsedData (some pr.2)], false⟩
  | InMsg.onViewFile value =>
    match value with
    | none => ⟨s, [], false⟩
    | some path =>
      if path = "" then ⟨s, [], false⟩
      else ⟨s, [], false⟩
  | InMsg.onSaplingVisible =>
    match s.parser with
    | none => ⟨s, [], false⟩
    | some p =>
      match p.tree with
      | none => ⟨s, [OutMsg.parsedData p.getTree], true⟩
      | some t =>
        ⟨s, [OutMsg.parsedData p.getTree, OutMsg.savedFile t.fileName], false⟩
  | InMsg.onSettingsAcquire =>
    ⟨s, [OutMsg.settingsData settingsView], false⟩
  | InMsg.onNodeToggle id expanded =>
    match s.parser with
    | none => ⟨s, [], true⟩
    | some p => ⟨{ s with parser := some (p.toggleNode id expanded) }, [], false⟩
  | InMsg.onBoldCheck =>
    match activeEditor with
    | none => ⟨s, [], true⟩
    | some fileName =>
      match s._view with
      | none => ⟨s, [], true⟩
      | some _ => ⟨s, [OutMsg.currentTab fileName], false⟩

/-- The statusButtonClicked method: destructures the active editor document
(faulting when there is none), and when the file name is truthy constructs a
fresh parser, parses, then posts parsed-data with getTree and saved-file with
the tree file name through this._view — faulting when _view is undefined. -/
def statusButtonClicked (O : ParserOracle) (activeEditor : Option String)
    (s : SidebarProvider) : HResult :=
  match activeEditor with
  | none => ⟨s, [], true⟩
  | some fileName =>
    if fileName = "" then ⟨s, [], false⟩
    else
      let pr := (SaplingParser.construct fileName).parse O
      let s2 := { s with parser := some pr.1 }
      match s._view with
      | none => ⟨s2, [], true⟩
      | some _ =>
        match pr.1.tree with
        | none => ⟨s2, [OutMsg.parsedData pr.1.getTree], true⟩
        | some t =>
          ⟨s2, [OutMsg.parsedData pr.1.getTree, OutMsg.savedFile t.fileName],
           false⟩

/-- The revive method: stores the panel as _view. -/
def revive (panel : WebviewView) (s : SidebarProvider) : HResult :=
  ⟨{ s with _view := some panel }, [], false⟩

/-- The state effect of resolveWebviewView itself: stores the webview view as
_view (handler registration and HTML templating carry no session state). -/
def resolveWebviewView (webviewView : WebviewView) (s : SidebarProvider) :
    SidebarProvider :=
  { s with _view := some webviewView }

/-- Every operation of the controller, for stating state-machine invariants:
each registered host-event handler, each inbound UI message, the status-bar
button and revive. -/
inductive Op where
  | configChanged (settingsView : String)
  | activeEditorChanged (e : Option String)
  | docSaved (docFileName : String) (visible : Bool)
  | uiMessage (activeEditor : Option String) (settingsView : String) (data : InMsg)
  | statusButton (activeEditor : Option String)
  | reviveOp (panel : WebviewView)
deriving Repr

/-- Dispatch one operation against the provider state. -/
def step (O : ParserOracle) (op : Op) (s : SidebarProvider) : HResult :=
  match op with
  | Op.configChanged sv => onDidChangeConfiguration sv s
  | Op.activeEditorChanged e => onDidChangeActiveTextEditor e s
  | Op.docSaved doc visible => onDidSaveTextDocument O doc visible s
  | Op.uiMessage ae sv data => onDidReceiveMessage O ae sv data s
  | Op.statusButton ae => statusButtonClicked O ae s
  | Op.reviveOp panel => revive panel s

/-- A concrete Parser oracle for evaluating the model on concrete inputs: the
parse of a file is a two-node tree named after the file, and re-derivation
reparses the bound file. -/
def demoOracle : ParserOracle :=
  ⟨fun path => ⟨path, [⟨0, true⟩, ⟨1, false⟩]⟩,
   fun bound _ _ => ⟨bound, [⟨0, true⟩, ⟨1, false⟩]⟩⟩

/-- The provider state before resolveWebviewView has run: no view, no parser. -/
def initialState : SidebarProvider :=
  ⟨none, none, none⟩

/-- A concrete tree for evaluating the model: the demo parse of main.ts. -/
def demoTreeVal : Tree :=
  ⟨"main.ts", [⟨0, true⟩, ⟨1, false⟩]⟩

/-- A concrete parser bound to main.ts holding its computed tree. -/
def demoParser : SaplingParser :=
  ⟨"main.ts", some demoTreeVal⟩

/-- A provider state with a visible view and a parser bound to main.ts whose
tree has been computed. -/
def boundState : SidebarProvider :=
  ⟨some ⟨true⟩, none, some demoParser⟩

/-- C1: the claim fails on the code.  An onNodeToggle received while no parser
exists leaves the TreeSession unchanged and sends nothing, but the handler
does not complete without fault: the source evaluates this.parser.toggleNode
with this.parser undefined, a TypeError, where the spec requires a defensive
silent no-op. -/
theorem toggle_without_session_faults (O : ParserOracle) (ae : Option String)
    (sv : String) (s : SidebarProvider) (id : Nat) (ex : Bool)
    (h : s.parser = none) :
    (onDidReceiveMessage O ae sv (InMsg.onNodeToggle id ex) s).faulted = true ∧
    (onDidReceiveMessage O ae sv (InMsg.onNodeToggle id ex) s).state = s ∧
    (onDidReceiveMessage O ae sv (InMsg.onNodeToggle id ex) s).msgs = [] := by
  simp [onDidReceiveMessage, h]

/-- Witness for C1 at the initial state and the toggle of node 0. -/
theorem toggle_without_session_faults_witness :
    (onDidReceiveMessage demoOracle none "" (InMsg.onNodeToggle 0 true)
        initialState).faulted = true ∧
    (onDidReceiveMessage demoOracle none "" (InMsg.onNodeToggle 0 true)
        initialState).state = initialState ∧
    (onDidReceiveMessage demoOracle none "" (InMsg.onNodeToggle 0 true)
        initialState).msgs = [] :=
  toggle_without_session_faults demoOracle none "" initialState 0 true rfl

/-- C2: the claim fails on the code.  statusButtonClicked invoked with a
non-empty active file name while _view is undefined does not complete without
error and is not effect-free: it replaces the parser with a freshly parsed
one and then faults at this._view.webview with zero messages delivered,
where the spec requires a channel-absent send to be a safe no-op. -/
theorem status_button_send_without_view_faults (O : ParserOracle)
    (fileName : String) (s : SidebarProvider)
    (hf : fileName ≠ "") (hv : s._view = none) :
    (statusButtonClicked O (some fileName) s).faulted = true ∧
    (statusButtonClicked O (some fileName) s).state.parser =
      some ⟨fileName, some (O.parseFn fileName)⟩ ∧
    (statusButtonClicked O (some fileName) s).msgs = [] := by
  simp [statusButtonClicked, hf, hv, SaplingParser.construct, SaplingParser.parse]

/-- Witness for C2 at the initial state (resolveWebviewView never ran) with
active file main.ts. -/
theorem status_button_send_without_view_faults_witness :
    (statusButtonClicked demoOracle (some "main.ts") initialState).faulted = true ∧
    (statusButtonClicked demoOracle (some "main.ts") initialState).state.parser =
      some ⟨"main.ts", some (demoOracle.parseFn "main.ts")⟩ ∧
    (statusButtonClicked demoOracle (some "main.ts") initialState).msgs = [] :=
  status_button_send_without_view_faults demoOracle "main.ts" initialState
    (by decide) rfl

/-- C3: visibility gating on save.  With no parser the save handler changes
nothing and sends nothing; with a parser and a hidden view it stores the
updateTree result but sends nothing; with a parser and a visible view it
stores the updateTree result and sends exactly one parsed-data message
carrying the refreshed tree.  No path faults. -/
theorem save_visibility_gating (O : ParserOracle) (doc : String)
    (visible : Bool) (s : SidebarProvider) :
    (s.parser = none → onDidSaveTextDocument O doc visible s = ⟨s, [], false⟩) ∧
    (∀ p, s.parser = some p → visible = false →
      onDidSaveTextDocument O doc visible s =
        ⟨{ s with parser := some (p.updateTree O doc).1 }, [], false⟩) ∧
    (∀ p, s.parser = some p → visible = true →
      onDidSaveTextDocument O doc visible s =
        ⟨{ s with parser := some (p.updateTree O doc).1 },
         [OutMsg.parsedData (some (p.updateTree O doc).2)], false⟩) := by
  refine ⟨fun h => ?_, fun p hp hv => ?_, fun p hp hv => ?_⟩ <;>
    simp [onDidSaveTextDocument, *]

/-- Witness for C3 at the bound state with a visible view. -/
theorem save_visibility_gating_witness :
    onDidSaveTextDocument demoOracle "main.ts" true boundState =
      ⟨{ boundState with
          parser := some ((demoParser.updateTree demoOracle "main.ts").1) },
       [OutMsg.parsedData (some ((demoParser.updateTree demoOracle "main.ts").2))],
       false⟩ :=
  (save_visibility_gating demoOracle "main.ts" true boundState).2.2 demoParser
    rfl rfl

/-- C4: visibility catch-up.  With no parser the onSaplingVisible case is a
silent no-op; with a parser holding tree t it sends exactly two messages in
order, parsed-data with the stored tree from getTree (no recomputation) and
saved-file with the tree file name, changing no state. -/
theorem sapling_visible_catchup (O : ParserOracle) (ae : Option String)
    (sv : String) (s : SidebarProvider) :
    (s.parser = none →
      onDidReceiveMessage O ae sv InMsg.onSaplingVisible s = ⟨s, [], false⟩) ∧
    (∀ p t, s.parser = some p → p.tree = some t →
      onDidReceiveMessage O ae sv InMsg.onSaplingVisible s =
        ⟨s, [OutMsg.parsedData (some t), OutMsg.savedFile t.fileName], false⟩) := by
  constructor
  · intro h
    simp [onDidReceiveMessage, h]
  · intro p t hp ht
    simp [onDidReceiveMessage, hp, ht, SaplingParser.getTree]

/-- Witness for C4 at the bound state. -/
theorem sapling_visible_catchup_witness :
    onDidReceiveMessage demoOracle none "" InMsg.onSaplingVisible boundState =
      ⟨boundState,
       [OutMsg.parsedData (some demoTreeVal),
        OutMsg.savedFile demoTreeVal.fileName], false⟩ :=
  (sapling_visible_catchup demoOracle none "" boundState).2 demoParser
    demoTreeVal rfl rfl

/-- C5: open replaces, never merges.  After onFile(a) then onFile(b) with a
and b non-empty and distinct, the parser is a fresh parser bound to b whose
tree is exactly the full parse of b; nothing of the parser or tree for a
remains. -/
theorem open_file_replaces (O : ParserOracle) (ae : Option String) (sv : String)
    (a b : String) (s : SidebarProvider)
    (ha : a ≠ "") (hb : b ≠ "") (_hab : a ≠ b) :
    (onDidReceiveMessage O ae sv (InMsg.onFile (some b))
        (onDidReceiveMessage O ae sv (InMsg.onFile (some a)) s).state).state.parser =
      some ⟨b, some (O.parseFn b)⟩ := by
  simp [onDidReceiveMessage, ha, hb, SaplingParser.construct, SaplingParser.parse]

/-- Witness for C5 opening a.ts then b.ts from the initial state. -/
theorem open_file_replaces_witness :
    (onDidReceiveMessage demoOracle none "" (InMsg.onFile (some "b.ts"))
        (onDidReceiveMessage demoOracle none "" (InMsg.onFile (some "a.ts"))
          initialState).state).state.parser =
      some ⟨"b.ts", some (demoOracle.parseFn "b.ts")⟩ :=
  open_file_replaces demoOracle none "" "a.ts" "b.ts" initialState
    (by decide) (by decide) (by decide)

/-- C6: empty-input idempotence.  An onFile message whose value is absent or
the empty string, and an onViewFile message whose value is absent, leave the
state unchanged and send nothing, from every prior state. -/
theorem empty_input_noop (O : ParserOracle) (ae : Option String) (sv : String)
    (s : SidebarProvider) (v : Option String) (hv : v = none ∨ v = some "") :
    onDidReceiveMessage O ae sv (InMsg.onFile v) s = ⟨s, [], false⟩ ∧
    onDidReceiveMessage O ae sv (InMsg.onViewFile none) s = ⟨s, [], false⟩ := by
  rcases hv with h | h <;> subst h <;> simp [onDidReceiveMessage]

/-- Witness for C6 with an empty-string onFile value at the bound state. -/
theorem empty_input_noop_witness :
    onDidReceiveMessage demoOracle none "" (InMsg.onFile (some "")) boundState =
      ⟨boundState, [], false⟩ ∧
    onDidReceiveMessage demoOracle none "" (InMsg.onViewFile none) boundState =
      ⟨boundState, [], false⟩ :=
  empty_input_noop demoOracle none "" boundState (some "") (Or.inr rfl)

/-- C7: active-document change.  When the event carries no editor (all tabs
closed) the handler is a no-op sending nothing; otherwise it sends exactly
one current-tab message with the new document file path, from every provider
state — in particular regardless of view visibility, which the handler never
reads. -/
theorem active_editor_change_message (s : SidebarProvider) :
    onDidChangeActiveTextEditor none s = ⟨s, [], false⟩ ∧
    ∀ f, onDidChangeActiveTextEditor (some f) s =
      ⟨s, [OutMsg.currentTab f], false⟩ :=
  ⟨rfl, fun _ => rfl⟩

/-- C8: a session, once started, persists.  Every operation of the controller
— every inbound UI message, every host event, statusButtonClicked and revive —
leaves the parser field defined whenever it was defined before, including the
operations that fault partway. -/
theorem parser_never_cleared (O : ParserOracle) (op : Op) (s : SidebarProvider)
    (h : s.parser.isSome = true) :
    ((step O op s).state.parser).isSome = true := by
  obtain ⟨p, hp⟩ := Option.isSome_iff_exists.mp h
  cases op with
  | configChanged sv => simp [step, onDidChangeConfiguration, hp]
  | activeEditorChanged e =>
    cases e <;> simp [step, onDidChangeActiveTextEditor, hp]
  | docSaved doc visible =>
    cases visible <;> simp [step, onDidSaveTextDocument, hp]
  | uiMessage ae sv data =>
    cases data with
    | onFile v =>
      rcases v with _ | path
      · simp [step, onDidReceiveMessage, hp]
      · by_cases hpath : path = "" <;>
          simp [step, onDidReceiveMessage, hpath, hp,
            SaplingParser.construct, SaplingParser.parse]
    | onViewFile v =>
      rcases v with _ | path
      · simp [step, onDidReceiveMessage, hp]
      · by_cases hpath : path = "" <;>
          simp [step, onDidReceiveMessage, hpath, hp]
    | onSaplingVisible =>
      cases ht : p.tree <;> simp [step, onDidReceiveMessage, hp, ht]
    | onSettingsAcquire => simp [step, onDidReceiveMessage, hp]
    | onNodeToggle id ex => simp [step, onDidReceiveMessage, hp]
    | onBoldCheck =>
      rcases ae with _ | f
      · simp [step, onDidReceiveMessage, hp]
      · cases hw : s._view <;> simp [step, onDidReceiveMessage, hp, hw]
  | statusButton ae =>
    rcases ae with _ | f
    · simp [step, statusButtonClicked, hp]
    · by_cases hf : f = ""
      · simp [step, statusButtonClicked, hf, hp]
      · cases hw : s._view <;>
          simp [step, statusButtonClicked, hf, hw,
            SaplingParser.construct, SaplingParser.parse]
  | reviveOp panel => simp [step, revive, hp]

/-- Witness for C8: a save event at the bound state keeps the parser defined. -/
theorem parser_never_cleared_witness :
    ((step demoOracle (Op.docSaved "main.ts" false) boundState).state.parser).isSome
      = true :=
  parser_never_cleared demoOracle (Op.docSaved "main.ts" false) boundState rfl

/-- C9: frame conditions.  The onViewFile, onSettingsAcquire and onBoldCheck
cases, the configuration-changed handler and the active-document-changed
handler never modify the TreeSession: the parser field is identical before
and after each of them, on every state and input, including the faulting
paths of onBoldCheck. -/
theorem frame_handlers_preserve_session (O : ParserOracle) (ae : Option String)
    (sv : String) (s : SidebarProvider) :
    (∀ v, (onDidReceiveMessage O ae sv (InMsg.onViewFile v) s).state.parser
        = s.parser) ∧
    ((onDidReceiveMessage O ae sv InMsg.onSettingsAcquire s).state.parser
        = s.parser) ∧
    ((onDidReceiveMessage O ae sv InMsg.onBoldCheck s).state.parser
        = s.parser) ∧
    (∀ w, (onDidChangeConfiguration w s).state.parser = s.parser) ∧
    (∀ e, (onDidChangeActiveTextEditor e s).state.parser = s.parser) := by
  refine ⟨fun v => ?_, rfl, ?_, fun w => rfl, fun e => ?_⟩
  · rcases v with _ | path
    · rfl
    · by_cases hpath : path = "" <;> simp [onDidReceiveMessage, hpath]
  · rcases ae with _ | f
    · rfl
    · cases hw : s._view <;> simp [onDidReceiveMessage, hw]
  · cases e <;> rfl

/-- C10 counterexample: at the concrete invocation of statusButtonClicked
with active file main.ts from the initial state (where _view is undefined),
the code sends no message at all and faults, so it does not send the two
messages the claim requires. -/
theorem status_button_claim_counterexample :
    (statusButtonClicked demoOracle (some "main.ts") initialState).msgs = [] ∧
    (statusButtonClicked demoOracle (some "main.ts") initialState).faulted
      = true ∧
    (statusButtonClicked demoOracle (some "main.ts") initialState).msgs.length
      ≠ 2 := by
  refine ⟨?_, ?_, ?_⟩ <;>
    simp [statusButtonClicked, initialState,
      SaplingParser.construct, SaplingParser.parse]

/-- C10 amended: provided the view surface exists (_view is defined), a
statusButtonClicked with a non-empty active file name replaces the parser
with a fresh one bound to that file, performs the full parse, and sends
exactly two messages in order — parsed-data carrying the tree retrieved via
getTree, then saved-file carrying the tree file name; with an empty file name
nothing changes and nothing is sent.  (As stated the claim fails when _view
is undefined: the sends fault after the parser was already replaced.) -/
theorem status_button_with_view (O : ParserOracle) (fileName : String)
    (s : SidebarProvider) (wv : WebviewView) (hv : s._view = some wv) :
    (fileName = "" →
      statusButtonClicked O (some fileName) s = ⟨s, [], false⟩) ∧
    (fileName ≠ "" →
      statusButtonClicked O (some fileName) s =
        ⟨{ s with parser := some ⟨fileName, some (O.parseFn fileName)⟩ },
         [OutMsg.parsedData (some (O.parseFn fileName)),
          OutMsg.savedFile (O.parseFn fileName).fileName], false⟩) := by
  constructor
  · intro h
    simp [statusButtonClicked, h]
  · intro h
    simp [statusButtonClicked, h, hv, SaplingParser.construct,
      SaplingParser.parse, SaplingParser.getTree]

/-- Witness for C10 at the bound state (view present) with active file
app.tsx. -/
theorem status_button_with_view_witness :
    statusButtonClicked demoOracle (some "app.tsx") boundState =
      ⟨{ boundState with
          parser := some ⟨"app.tsx", some (demoOracle.parseFn "app.tsx")⟩ },
       [OutMsg.parsedData (some (demoOracle.parseFn "app.tsx")),
        OutMsg.savedFile (demoOracle.parseFn "app.tsx").fileName], false⟩ :=
  (status_button_with_view demoOracle "app.tsx" boundState ⟨true⟩ rfl).2
    (by decide)

end Sapling
